import Mathlib

/-!
Shallow embedding of `syno_tools/similar.py` (the `AudioStationRemote`
protocol client, the memoized similar-artist lookup, and the polling loop),
with theorems settling the specification claims about it.

Modelling conventions:
* Python JSON values are the inductive `Json`; numbers are modelled as `Int`
  (no claim touches fractional values).
* Python exceptions are the inductive `PyExc`; fallible code returns
  `Except PyExc _`.  The single exception class `RemotePlayerError` of the
  source is the constructor `PyExc.remotePlayerError` carrying its payload;
  Python builtins that the source can raise (`StopIteration` from `next`,
  `UnicodeEncodeError` from `str.encode`, `KeyError`/`TypeError`/
  `AttributeError` from subscripting) are separate constructors.
* Python `str` at the transport-encoding boundary is `PyStr` (a list of code
  points), because CPython strings may hold lone surrogates, which are
  exactly the strings `str.encode` (UTF-8) rejects.
* The HTTP exchange is modelled by passing the device's `HttpResponse`
  (status code and parsed JSON body) to each operation; the client never
  inspects the status code, exactly as in the source.
-/

namespace SynoTools

/-- A JSON value as produced by `response.json()` in the source. -/
inductive Json where
  | null : Json
  | bool : Bool → Json
  | num : Int → Json
  | str : String → Json
  | arr : List Json → Json
  | obj : List (String × Json) → Json
  deriving Repr

mutual

/-- Structural equality of JSON values, modelling Python `==` on the
decoded response values (the source compares dictionaries with `!=`). -/
def Json.beq : Json → Json → Bool
  | .null, .null => true
  | .bool a, .bool b => a == b
  | .num a, .num b => a == b
  | .str a, .str b => a == b
  | .arr a, .arr b => Json.beqList a b
  | .obj a, .obj b => Json.beqFields a b
  | _, _ => false

/-- Elementwise `Json.beq` on arrays. -/
def Json.beqList : List Json → List Json → Bool
  | [], [] => true
  | x :: xs, y :: ys => Json.beq x y && Json.beqList xs ys
  | _, _ => false

/-- Key/value-wise `Json.beq` on object field lists. -/
def Json.beqFields : List (String × Json) → List (String × Json) → Bool
  | [], [] => true
  | (k1, v1) :: xs, (k2, v2) :: ys => k1 == k2 && Json.beq v1 v2 && Json.beqFields xs ys
  | _, _ => false

end

instance : BEq Json := ⟨Json.beq⟩

/-- Python truthiness (`if x:`) on JSON values: `None`, `False`, `0`, `""`,
`[]` and `\x7b\x7d` are falsy, everything else truthy. -/
def Json.truthy : Json → Bool
  | .null => false
  | .bool b => b
  | .num n => n != 0
  | .str s => !s.isEmpty
  | .arr xs => !xs.isEmpty
  | .obj fs => !fs.isEmpty

/-- Python exceptions that `similar.py` can raise: its one exception class
`RemotePlayerError(RuntimeError)` with the value it was constructed from, and
the builtins raised by the operations the source uses. -/
inductive PyExc where
  | remotePlayerError : Json → PyExc
  | stopIteration : PyExc
  | unicodeEncodeError : PyExc
  | keyError : String → PyExc
  | typeError : PyExc
  | attributeError : PyExc
  deriving Repr

/-- A Python `str` as a list of Unicode code points.  Unlike Lean `String`,
CPython strings may contain lone surrogates (U+D800 to U+DFFF), which is what
makes `str.encode` fallible. -/
abbrev PyStr : Type := List Nat

/-- View a Lean string as a `PyStr` (every Lean string is surrogate-free). -/
def strToPy (s : String) : PyStr := s.toList.map Char.toNat

/-- Whether `str.encode()` (UTF-8, CPython) succeeds on the string: it fails
exactly when the string contains a lone surrogate code point. -/
def encodable (s : PyStr) : Bool :=
  s.all (fun c => decide (c < 0xD800) || decide (0xDFFF < c))

/-- An HTTP response as the transport hands it back: status code and parsed
JSON body.  `AudioStationRemote.request` never reads the status code. -/
structure HttpResponse where
  status : Nat
  body : Json

/-- Python `d[k]` on a JSON value: field lookup on an object (raising
`KeyError` when the key is absent), `TypeError` when subscripting a
non-object with a string key. -/
def pyIndex (j : Json) (k : String) : Except PyExc Json :=
  match j with
  | .obj fs =>
    match fs.lookup k with
    | some v => .ok v
    | none => .error (.keyError k)
  | _ => .error .typeError

/-- Python `d.get(k)` on a JSON value: `None` when the key is absent,
`AttributeError` when the receiver is not a dict. -/
def pyGet (j : Json) (k : String) : Except PyExc Json :=
  match j with
  | .obj fs => .ok ((fs.lookup k).getD .null)
  | _ => .error .attributeError

/-- Python `d.get(k, default)` on a JSON value. -/
def pyGetD (j : Json) (k : String) (d : Json) : Except PyExc Json :=
  match j with
  | .obj fs => .ok ((fs.lookup k).getD d)
  | _ => .error .attributeError

/-- Python `d.items()` on a JSON value (`AttributeError` on a non-dict). -/
def pyItems (j : Json) : Except PyExc (List (String × Json)) :=
  match j with
  | .obj fs => .ok fs
  | _ => .error .attributeError

/-- Python iteration `for x in j` over a decoded JSON array (the source only
iterates the device's `players` and `artists` arrays; a non-array there is
modelled as `TypeError`). -/
def pyIter (j : Json) : Except PyExc (List Json) :=
  match j with
  | .arr xs => .ok xs
  | _ => .error .typeError

/-- The HTTP verb of a call, as passed to `Session.request`.  The source's
error handling is verb-independent; the verb is carried so the theorems can
quantify over it. -/
inductive Verb where
  | get : Verb
  | post : Verb
  deriving Repr, DecidableEq

/-- `AudioStationRemote.request` (similar.py lines 124-137).  The body, when
present, is encoded first (`data.encode()`, which raises
`UnicodeEncodeError` on a string holding a lone surrogate, before any
exchange happens); the device's reply `resp` is then parsed and the walrus
check `if error_message := request.json().get("error"):` raises
`RemotePlayerError(error_message)` when the `error` field is truthy;
otherwise the parsed envelope is handed back to the caller (who reads
`.json()` from the returned response object).  The verb, the path and the
HTTP status code are never consulted by this logic. -/
def request (verb : Verb) (path : String) (resp : HttpResponse)
    (data : Option PyStr) : Except PyExc Json :=
  match data with
  | some d =>
    if encodable d then
      match pyGet resp.body "error" with
      | .error e => .error e
      | .ok err => if err.truthy then .error (.remotePlayerError err) else .ok resp.body
    else .error .unicodeEncodeError
  | none =>
    match pyGet resp.body "error" with
    | .error e => .error e
    | .ok err => if err.truthy then .error (.remotePlayerError err) else .ok resp.body

/-- `query_syno_api_info` (lines 142-145): unauthenticated GET against the
capability-discovery path; returns the envelope. -/
def query_syno_api_info (resp : HttpResponse) : Except PyExc Json :=
  request .get "webapi/entry.cgi?api=SYNO.API.Info&version=1&method=query" resp none

/-- Python substring test `needle in hay`. -/
def strContainsSub (hay needle : String) : Bool :=
  hay.toList.tails.any (fun t => needle.toList.isPrefixOf t)

/-- The dict comprehension of `__post_init__` (line 119):
`\x7bk: v for k, v in response["data"].items() if "Audio" in k\x7d` —
the capability descriptors the client retains. -/
def selectAudioVersions (items : List (String × Json)) : List (String × Json) :=
  items.filter (fun kv => strContainsSub kv.1 "Audio")

/-- `login` (lines 147-152): GET against the auth path with account and
password interpolated; the envelope check of `request` applies unchanged, so
an error envelope surfaces as the same `RemotePlayerError` as any other
device error. -/
def login (account passwd : String) (resp : HttpResponse) : Except PyExc Json :=
  request .get
    ("webapi/entry.cgi?api=SYNO.API.Auth&version=6&method=login&account="
      ++ account ++ "&passwd=" ++ passwd ++ "&session=AudioStation&format=cookie")
    resp none

/-- The module-level constant of line 17. -/
def REMOTE_PLAYER_NAME : String := "Salon (DLNA)"

/-- `list_remote_players` (lines 154-159): POST with a fixed form body;
returns the envelope. -/
def list_remote_players (resp : HttpResponse) : Except PyExc Json :=
  request .post "webapi/AudioStation/remote_player.cgi" resp
    (some (strToPy "api=SYNO.AudioStation.RemotePlayer&version=3&method=list"))

/-- The generator of line 162-166:
`next(x["id"] for x in players if x["name"] == REMOTE_PLAYER_NAME)` —
the first player whose `name` equals the module constant yields its `id`;
an exhausted generator raises `StopIteration`. -/
def nextMatchingPlayerId : List Json → Except PyExc Json
  | [] => .error .stopIteration
  | x :: rest =>
    match pyIndex x "name" with
    | .error e => .error e
    | .ok name =>
      if Json.beq name (.str REMOTE_PLAYER_NAME) then pyIndex x "id"
      else nextMatchingPlayerId rest

/-- `get_remote_player_id` (lines 161-167).  Note that the comparison is
against the module constant `REMOTE_PLAYER_NAME`; the `remote_player` value
the dataclass was constructed with is carried here only to show it is never
consulted. -/
def get_remote_player_id (remote_player : String) (resp : HttpResponse) :
    Except PyExc Json :=
  match list_remote_players resp with
  | .error e => .error e
  | .ok env =>
    match pyIndex env "data" with
    | .error e => .error e
    | .ok data =>
      match pyIndex data "players" with
      | .error e => .error e
      | .ok players =>
        match pyIter players with
        | .error e => .error e
        | .ok xs => nextMatchingPlayerId xs

/-- `get_remote_player_status` (lines 169-178): POST requesting
`additional=song_tag`, then `.json().get("data", \x7b\x7d)`. -/
def get_remote_player_status (player_id : String) (resp : HttpResponse) :
    Except PyExc Json :=
  match request .post "webapi/AudioStation/remote_player.cgi" resp
      (some (strToPy
        ("api=SYNO.AudioStation.RemotePlayerStatus&version=1&method=getstatus&id="
          ++ player_id ++ "&additional=song_tag"))) with
  | .error e => .error e
  | .ok env => pyGetD env "data" (.obj [])

/-- Python dict item assignment `d[k] = v` on an object field list: replaces
the value in place when the key exists, appends otherwise. -/
def dictSet (l : List (String × Json)) (k : String) (v : Json) :
    List (String × Json) :=
  if l.any (fun p => p.1 == k) then
    l.map (fun p => if p.1 == k then (k, v) else p)
  else l ++ [(k, v)]

/-- The dict display of line 188: `\x7b"title": title, **tag\x7d` — start
from the singleton `title` dict and fold the tag's items in with Python
assignment semantics (`TypeError` if the unpacked value is not a dict). -/
def mergeTitleTag (title : Json) (tag : Json) : Except PyExc Json :=
  match tag with
  | .obj fs => .ok (.obj (fs.foldl (fun acc kv => dictSet acc kv.1 kv.2) [("title", title)]))
  | _ => .error .typeError

/-- `get_now_playing` (lines 180-188): status query, early `None` unless
`state == "playing"`, then `song["additional"].get("song_tag")` with the
truthiness check `if not song:` raising `RemotePlayerError("No info found")`,
and finally the merged `\x7b"title": ..., **song_tag\x7d` record. -/
def get_now_playing (player_id : String) (resp : HttpResponse) :
    Except PyExc (Option Json) :=
  match get_remote_player_status player_id resp with
  | .error e => .error e
  | .ok info =>
    match pyIndex info "state" with
    | .error e => .error e
    | .ok st =>
      if Json.beq st (.str "playing") = false then .ok none
      else
        match pyIndex info "song" with
        | .error e => .error e
        | .ok song =>
          match pyIndex song "additional" with
          | .error e => .error e
          | .ok add =>
            match pyGet add "song_tag" with
            | .error e => .error e
            | .ok tag =>
              if tag.truthy = false then
                .error (.remotePlayerError (.str "No info found"))
              else
                match pyIndex song "title" with
                | .error e => .error e
                | .ok title =>
                  match mergeTitleTag title tag with
                  | .error e => .error e
                  | .ok merged => .ok (some merged)

/-- The POST body of `search_for_artist` (line 197) with the artist name
interpolated by the f-string. -/
def artistSearchBody (artist : PyStr) : PyStr :=
  strToPy "api=SYNO.AudioStation.Artist&version=4&method=list&filter="
    ++ artist
    ++ strToPy "&library=all&limit=10&offset=0&additional=avg_rating"

/-- `search_for_artist` (lines 190-203): the whole
`request(...).json().get("data", \x7b\x7d)` is wrapped in
`try/except UnicodeEncodeError`, which returns the empty dict; every other
exception (for instance a device error envelope) propagates. -/
def search_for_artist (artist : PyStr) (resp : HttpResponse) :
    Except PyExc Json :=
  match
    ((match request .post "webapi/AudioStation/artist.cgi" resp
        (some (artistSearchBody artist)) with
      | .error e => .error e
      | .ok env => pyGetD env "data" (.obj [])) : Except PyExc Json) with
  | .error .unicodeEncodeError => .ok (.obj [])
  | r => r

/-- `get_similar` (lines 81-90): asks the last.fm collaborator for similar
artists.  The collaborator is the oracle `simOracle name limit`; a `none`
reply models `pylast.WSError` ("artist not found"), which the source catches
and turns into the empty list. -/
def get_similar (simOracle : String → Nat → Option (List String))
    (artist : String) (limit : Nat) : List String :=
  match simOracle artist limit with
  | some names => names
  | none => []

/-- Python `s.replace(",", " ")` over code points of a Lean string. -/
def replaceCommaSpace (cs : List Char) : List Char :=
  cs.map (fun c => if c = ',' then ' ' else c)

/-- Python `s.split(" ")`: split on every single space, keeping empty
pieces (so `"a  b"` gives `["a", "", "b"]` and `""` gives `[""]`). -/
def splitSpaces : List Char → List (List Char)
  | [] => [[]]
  | c :: rest =>
    match splitSpaces rest with
    | [] => if c = ' ' then [[]] else [[c]]
    | h :: t => if c = ' ' then [] :: h :: t else (c :: h) :: t

/-- The word set of line 216: `set(s.replace(",", " ").split(" "))`. -/
def pyWords (s : String) : List (List Char) :=
  splitSpaces (replaceCommaSpace s.toList)

/-- The filter condition of lines 216-218: the two names share a word
(`set(...) & set(...)` is truthy exactly when some word is common). -/
def wordsOverlap (a b : String) : Bool :=
  (pyWords a).any (fun w => (pyWords b).contains w)

/-- Python `set.add` on the insertion-ordered list model of a `set` of
strings: adds the element when absent. -/
def setAdd (s : List String) (x : String) : List String :=
  if s.contains x then s else s ++ [x]

/-- The process-lifetime global `SIMILAR_ARTISTS: dict[str, set[str]]`
(line 20), modelled as explicit state threaded through
`get_similar_artists`. -/
abbrev SimCache : Type := List (String × List String)

/-- Python `SIMILAR_ARTISTS.get(artist, set())`. -/
def cacheGetD (c : SimCache) (k : String) : List String :=
  ((List.lookup k c).getD [])

/-- Python `SIMILAR_ARTISTS[artist] = s`: replace in place when the key
exists, append otherwise. -/
def cacheSet (c : SimCache) (k : String) (v : List String) : SimCache :=
  if c.any (fun p => p.1 == k) then
    c.map (fun p => if p.1 == k then (k, v) else p)
  else c ++ [(k, v)]

/-- The inner loop of lines 215-219: for each `similar_artist` record of one
device search reply, read its `name` (`similar_artist["name"]`, a string —
`.replace` on anything else would raise) and add it to the accumulated set
when its words overlap the searched name's words. -/
def collectMatches (a : String) : List Json → List String →
    Except PyExc (List String)
  | [], acc => .ok acc
  | sa :: rest, acc =>
    match pyIndex sa "name" with
    | .error e => .error e
    | .ok nameJ =>
      match nameJ with
      | .str name =>
        collectMatches a rest (if wordsOverlap a name then setAdd acc name else acc)
      | _ => .error .attributeError

/-- The outer loop of lines 214-219: for each artist name from last.fm,
search the device (`search_for_artist`) and fold its
`.get("artists", [])` entries through `collectMatches`.  `searchResp`
is the device's reply per searched name. -/
def searchLoop (searchResp : String → HttpResponse) :
    List String → List String → Except PyExc (List String)
  | [], acc => .ok acc
  | a :: rest, acc =>
    match search_for_artist (strToPy a) (searchResp a) with
    | .error e => .error e
    | .ok data =>
      match pyGetD data "artists" (.arr []) with
      | .error e => .error e
      | .ok artsJ =>
        match pyIter artsJ with
        | .error e => .error e
        | .ok arts =>
          match collectMatches a arts acc with
          | .error e => .error e
          | .ok acc2 => searchLoop searchResp rest acc2

/-- `get_similar_artists` (lines 205-223).  `lastFm` is the truthiness of
`self.last_fm_network`; `cache` is the global `SIMILAR_ARTISTS` before the
call.  Returns the result set, the global after the call, and whether the
last.fm network call (`get_similar`) was performed.  Note the walrus line
209: a cached EMPTY set is falsy, so it fails the cache test and the whole
lookup is recomputed. -/
def get_similar_artists (lastFm : Bool)
    (simOracle : String → Nat → Option (List String))
    (searchResp : String → HttpResponse)
    (cache : SimCache) (artist : String) (limit : Nat) :
    Except PyExc (List String × SimCache × Bool) :=
  if lastFm = false then .ok ([], cache, false)
  else
    let cached := cacheGetD cache artist
    if cached.isEmpty = false then .ok (cached, cache, false)
    else
      match searchLoop searchResp (get_similar simOracle artist limit) cached with
      | .error e => .error e
      | .ok s => .ok (s, cacheSet cache artist s, true)

/-- What one pass of the `while True:` body of `main` (lines 257-290) did:
the value of `current_track` afterwards, whether `update_now_playing` and
`scrobble` were invoked, and whether the `except pylast.NetworkError`
branch caught a failure. -/
structure IterResult where
  current_track : Json
  updateCalled : Bool
  scrobbleCalled : Bool
  netErrorCaught : Bool
  deriving Repr

/-- Truthiness of `info` (an `Optional[NowPlaying]`): `None` is falsy, a
dict by its entries. -/
def optTruthy : Option Json → Bool
  | none => false
  | some j => j.truthy

/-- One iteration of the polling loop of `main` (lines 257-288), given the
result `info` of `get_now_playing` and the previous `current_track`.
`upFails`, `scrFails` and `simFails` say whether `network.update_now_playing`,
`network.scrobble` and the similar-artists step raise `pylast.NetworkError`;
a raise inside the guarded block skips the rest of the block (in particular
the `current_track = copy.copy(info)` assignment, which sits after the two
tracking calls and before the similar-artists step) and is caught by the
`except pylast.NetworkError` handler. -/
def loop_iteration (upFails scrFails simFails : Bool)
    (info : Option Json) (cur : Json) : IterResult :=
  match info with
  | none => ⟨cur, false, false, false⟩
  | some i =>
    if optTruthy (some i) && !(Json.beq cur i) then
      if upFails then ⟨cur, true, false, true⟩
      else if scrFails then ⟨cur, true, true, true⟩
      else if simFails then ⟨i, true, true, true⟩
      else ⟨i, true, true, false⟩
    else ⟨cur, false, false, false⟩

/-- The session state `__post_init__` (lines 114-122) leaves behind: the
retained capability descriptors and the resolved player id. -/
structure ClientState where
  versions : List (String × Json)
  player_id : Json

/-- `__post_init__` (lines 114-122): capability discovery, the `"Audio" in k`
filter, `login`, then `get_remote_player_id`; any failure aborts
construction with the raised exception. -/
def post_init (account passwd remote_player : String)
    (infoResp loginResp playersResp : HttpResponse) :
    Except PyExc ClientState :=
  match query_syno_api_info infoResp with
  | .error e => .error e
  | .ok env =>
    match pyIndex env "data" with
    | .error e => .error e
    | .ok dataJ =>
      match pyItems dataJ with
      | .error e => .error e
      | .ok items =>
        let versions := selectAudioVersions items
        match login account passwd loginResp with
        | .error e => .error e
        | .ok _ =>
          match get_remote_player_id remote_player playersResp with
          | .error e => .error e
          | .ok pid => .ok ⟨versions, pid⟩

/-- The keys of the `SongTag` TypedDict (similar.py lines 65-74): the shape
of the tag metadata the device delivers under `additional.song_tag`.  Note
`title` is not among them (`title` lives on `Song`, and `NowPlaying` is
declared as `SongTag` plus `title`). -/
def songTagKeys : List String :=
  ["album", "album_artist", "artist", "comment", "composer", "disc", "genre",
   "track", "year"]

/-! ## Helper lemmas -/

/-- The request primitive raises `RemotePlayerError` with the error payload
whenever the (encoded) call comes back with a truthy `error` field. -/
theorem request_raises (verb : Verb) (path : String) (status : Nat)
    (fs : List (String × Json)) (data : Option PyStr)
    (henc : ∀ d, data = some d → encodable d = true)
    (herr : Json.truthy ((List.lookup "error" fs).getD .null) = true) :
    request verb path ⟨status, .obj fs⟩ data =
      .error (.remotePlayerError ((List.lookup "error" fs).getD .null)) := by
  cases data with
  | none => simp [request, pyGet, herr]
  | some d => simp [request, pyGet, henc d rfl, herr]

/-- The request primitive hands the parsed envelope back whenever the
(encoded) call comes back with an absent or falsy `error` field. -/
theorem request_returns (verb : Verb) (path : String) (status : Nat)
    (fs : List (String × Json)) (data : Option PyStr)
    (henc : ∀ d, data = some d → encodable d = true)
    (herr : Json.truthy ((List.lookup "error" fs).getD .null) = false) :
    request verb path ⟨status, .obj fs⟩ data = .ok (.obj fs) := by
  cases data with
  | none => simp [request, pyGet, herr]
  | some d => simp [request, pyGet, henc d rfl, herr]

/-- Python dict assignment on a key that is absent appends the pair. -/
theorem dictSet_append (l : List (String × Json)) (k : String) (v : Json)
    (h : l.any (fun p => p.1 == k) = false) :
    dictSet l k v = l ++ [(k, v)] := by
  simp [dictSet, h]

/-- Folding Python dict assignments of pairwise-fresh keys over a dict with
disjoint keys is plain concatenation. -/
theorem foldl_dictSet_disjoint :
    ∀ (fs base : List (String × Json)),
      (∀ p ∈ fs, base.any (fun q => q.1 == p.1) = false) →
      (fs.map Prod.fst).Nodup →
      fs.foldl (fun acc kv => dictSet acc kv.1 kv.2) base = base ++ fs
  | [], base, _, _ => by simp
  | (k, v) :: rest, base, h, hnd => by
    have hb : base.any (fun q => q.1 == k) = false := h (k, v) (by simp)
    have hnd1 : k ∉ rest.map Prod.fst := (List.nodup_cons.mp (by simpa using hnd)).1
    have hnd2 : (rest.map Prod.fst).Nodup := (List.nodup_cons.mp (by simpa using hnd)).2
    have hrest : ∀ p ∈ rest, (base ++ [(k, v)]).any (fun q => q.1 == p.1) = false := by
      intro p hp
      have h1 : base.any (fun q => q.1 == p.1) = false := h p (by simp [hp])
      have h2 : k ≠ p.1 := by
        intro hkp
        exact hnd1 (hkp ▸ List.mem_map_of_mem Prod.fst hp)
      simp [List.any_append, h1, h2]
    calc ((k, v) :: rest).foldl (fun acc kv => dictSet acc kv.1 kv.2) base
        = rest.foldl (fun acc kv => dictSet acc kv.1 kv.2) (dictSet base k v) := by
          simp
      _ = rest.foldl (fun acc kv => dictSet acc kv.1 kv.2) (base ++ [(k, v)]) := by
          rw [dictSet_append base k v hb]
      _ = (base ++ [(k, v)]) ++ rest :=
          foldl_dictSet_disjoint rest (base ++ [(k, v)]) hrest hnd2
      _ = base ++ ((k, v) :: rest) := by simp

/-- The merge of line 188 on tag metadata whose keys are the `SongTag`
fields: the result is the `title` entry consed onto the tag entries,
untouched. -/
theorem mergeTitleTag_songTag (t : Json) (tfs : List (String × Json))
    (hkeys : ∀ p ∈ tfs, p.1 ∈ songTagKeys)
    (hnd : (tfs.map Prod.fst).Nodup) :
    mergeTitleTag t (.obj tfs) = .ok (.obj (("title", t) :: tfs)) := by
  have hdisj : ∀ p ∈ tfs,
      ([(("title" : String), t)]).any (fun q => q.1 == p.1) = false := by
    intro p hp
    have hmem : p.1 ∈ songTagKeys := hkeys p hp
    have hne : "title" ≠ p.1 := by
      intro h
      rw [← h] at hmem
      revert hmem
      decide
    simp [hne]
  rw [mergeTitleTag, foldl_dictSet_disjoint tfs [("title", t)] hdisj hnd]
  simp

/-- Lookup in an association list with distinct keys finds the member's
value. -/
theorem lookup_of_mem_nodup (fs : List (String × Json)) (k : String)
    (v : Json) (hm : (k, v) ∈ fs) (hnd : (fs.map Prod.fst).Nodup) :
    List.lookup k fs = some v := by
  induction fs with
  | nil => cases hm
  | cons p rest ih =>
    obtain ⟨k1, v1⟩ := p
    rw [List.map_cons] at hnd
    rcases List.mem_cons.mp hm with heq | hmem
    · cases heq
      simp [List.lookup]
    · have hk : k ≠ k1 := by
        intro h
        subst h
        exact (List.nodup_cons.mp hnd).1 (List.mem_map.mpr ⟨(k, v), hmem, rfl⟩)
      simp [List.lookup, beq_eq_false_iff_ne.mpr hk,
        ih hmem (List.nodup_cons.mp hnd).2]

/-- Walking the player generator past records whose `name` is present but
differs from `REMOTE_PLAYER_NAME` reaches the rest of the list. -/
theorem nextMatchingPlayerId_skip (pre rest : List Json)
    (h : ∀ y ∈ pre, ∃ gs v, y = Json.obj gs ∧ List.lookup "name" gs = some v ∧
      Json.beq v (.str REMOTE_PLAYER_NAME) = false) :
    nextMatchingPlayerId (pre ++ rest) = nextMatchingPlayerId rest := by
  induction pre with
  | nil => rfl
  | cons y ys ih =>
    obtain ⟨gs, v, hy, hn, hb⟩ := h y (List.mem_cons_self _ ys)
    subst hy
    rw [List.cons_append]
    simp only [nextMatchingPlayerId, pyIndex, hn, hb]
    exact ih (fun z hz => h z (List.mem_cons_of_mem _ hz))

/-- A player list with no record named `REMOTE_PLAYER_NAME` exhausts the
generator. -/
theorem nextMatchingPlayerId_none (xs : List Json)
    (h : ∀ y ∈ xs, ∃ gs v, y = Json.obj gs ∧ List.lookup "name" gs = some v ∧
      Json.beq v (.str REMOTE_PLAYER_NAME) = false) :
    nextMatchingPlayerId xs = .error .stopIteration := by
  have hs := nextMatchingPlayerId_skip xs [] h
  simpa [nextMatchingPlayerId] using hs

/-- On a clean players envelope, `get_remote_player_id` reduces to the
generator walk over the player records. -/
theorem get_remote_player_id_players (rp : String) (status : Nat)
    (xs : List Json) :
    get_remote_player_id rp
        ⟨status, .obj [("data", .obj [("players", .arr xs)])]⟩ =
      nextMatchingPlayerId xs := by
  have he : encodable
      (strToPy "api=SYNO.AudioStation.RemotePlayer&version=3&method=list") =
      true := by decide
  simp [get_remote_player_id, list_remote_players, request, pyGet, pyIndex,
    pyIter, he, List.lookup, Json.truthy]

/-- Python dict assignment on the similar-artists cache, then `.get` of the
same key, yields the assigned set. -/
theorem cacheGetD_cacheSet (c : SimCache) (k : String) (v : List String) :
    cacheGetD (cacheSet c k v) k = v := by
  have hlk : List.lookup k (cacheSet c k v) = some v := by
    induction c with
    | nil => simp [cacheSet, List.lookup]
    | cons p t ih =>
      obtain ⟨k1, v1⟩ := p
      by_cases hk : k1 = k
      · subst hk
        simp [cacheSet, List.any_cons, List.lookup]
      · have hbeq : (k1 == k) = false := beq_eq_false_iff_ne.mpr hk
        have hbeq2 : (k == k1) = false :=
          beq_eq_false_iff_ne.mpr (fun h => hk h.symm)
        have hcs : cacheSet ((k1, v1) :: t) k v = (k1, v1) :: cacheSet t k v := by
          by_cases ht : t.any (fun p => p.1 == k) = true
          · simp [cacheSet, List.any_cons, hbeq, ht]
            intro h
            exact absurd h hk
          · have ht2 : t.any (fun p => p.1 == k) = false :=
              Bool.eq_false_iff.mpr ht
            simp [cacheSet, List.any_cons, hbeq, ht2]
        rw [hcs]
        simp only [List.lookup, hbeq2]
        exact ih
  unfold cacheGetD
  rw [hlk]
  rfl

/-! ## Claim theorems -/

/-- C1: for every response envelope handed to the low-level `request`
primitive, if the envelope's `error` field is non-empty (truthy) the call
raises `RemotePlayerError` — the source's spelling of the spec's
`RemoteAPIError` — carrying exactly that error payload, and otherwise it
returns the parsed envelope; this holds for both GET and POST (any path,
any body that encodes) and for every HTTP status code, which the primitive
never reads. -/
theorem request_error_envelope (verb : Verb) (path : String) (status : Nat)
    (fs : List (String × Json)) (data : Option PyStr)
    (henc : ∀ d, data = some d → encodable d = true) :
    (Json.truthy ((List.lookup "error" fs).getD .null) = true →
      request verb path ⟨status, .obj fs⟩ data =
        .error (.remotePlayerError ((List.lookup "error" fs).getD .null)))
    ∧ (Json.truthy ((List.lookup "error" fs).getD .null) = false →
      request verb path ⟨status, .obj fs⟩ data = .ok (.obj fs)) :=
  ⟨fun herr => request_raises verb path status fs data henc herr,
   fun herr => request_returns verb path status fs data henc herr⟩

/-- Witness for C1: a POST with HTTP status 200 whose envelope carries
`error = \x7b"code": 400\x7d` raises `RemotePlayerError` with that payload,
and a GET with HTTP status 404 whose envelope has no `error` field returns
the envelope. -/
theorem request_error_envelope_witness :
    request .post "webapi/AudioStation/remote_player.cgi"
        ⟨200, .obj [("error", .obj [("code", .num 400)])]⟩
        (some (strToPy "api=SYNO.AudioStation.RemotePlayer&version=3&method=list")) =
      .error (.remotePlayerError (.obj [("code", .num 400)]))
    ∧ request .get "webapi/entry.cgi?api=SYNO.API.Info&version=1&method=query"
        ⟨404, .obj [("success", .bool true), ("data", .obj [])]⟩ none =
      .ok (.obj [("success", .bool true), ("data", .obj [])]) :=
  ⟨(request_error_envelope .post "webapi/AudioStation/remote_player.cgi" 200
      [("error", .obj [("code", .num 400)])]
      (some (strToPy "api=SYNO.AudioStation.RemotePlayer&version=3&method=list"))
      (by intro d h; cases h; decide)).1 (by decide),
   (request_error_envelope .get "webapi/entry.cgi?api=SYNO.API.Info&version=1&method=query"
      404 [("success", .bool true), ("data", .obj [])] none
      (by intro d h; cases h)).2 (by decide)⟩

/-- C9: for every capability-discovery response, the retained capability
map of `__post_init__` keeps exactly the entries whose key contains the
substring `"Audio"`; every entry whose key lacks that substring is
dropped. -/
theorem audio_versions_retained (items : List (String × Json))
    (kv : String × Json) :
    kv ∈ selectAudioVersions items ↔
      kv ∈ items ∧ strContainsSub kv.1 "Audio" = true := by
  simp [selectAudioVersions, List.mem_filter]

/-- C5: for every player status whose `state` field is present but differs
from `"playing"` (for instance `"paused"`), `get_now_playing` returns
`None`, regardless of the contents of the song payload. -/
theorem get_now_playing_not_playing (player_id : String)
    (resp : HttpResponse) (info : List (String × Json)) (st : Json)
    (hstat : get_remote_player_status player_id resp = .ok (.obj info))
    (hst : List.lookup "state" info = some st)
    (hne : Json.beq st (.str "playing") = false) :
    get_now_playing player_id resp = .ok none := by
  simp [get_now_playing, hstat, pyIndex, hst, hne]

/-- Witness for C5: a concrete paused status (whose song payload even
carries full tag metadata) yields `None`. -/
theorem get_now_playing_not_playing_witness :
    get_now_playing "uuid:player-1"
        ⟨200, .obj [("data", .obj
          [("state", .str "paused"),
           ("song", .obj
             [("title", .str "Song A"),
              ("additional", .obj
                [("song_tag", .obj [("artist", .str "Artist A")])])])])]⟩ =
      .ok none :=
  get_now_playing_not_playing "uuid:player-1" _
    [("state", .str "paused"),
     ("song", .obj
       [("title", .str "Song A"),
        ("additional", .obj
          [("song_tag", .obj [("artist", .str "Artist A")])])])]
    (.str "paused") rfl rfl rfl

/-- C4: for every player status whose state is `playing` but whose song has
no `song.additional.song_tag` entry, `get_now_playing` raises the no-track-
info error — in the source, `RemotePlayerError("No info found")`, which the
spec names `NoTrackInfoError` — rather than returning an empty or partial
result. -/
theorem get_now_playing_no_tag (player_id : String) (resp : HttpResponse)
    (info sfs afs : List (String × Json))
    (hstat : get_remote_player_status player_id resp = .ok (.obj info))
    (hst : List.lookup "state" info = some (.str "playing"))
    (hsong : List.lookup "song" info = some (.obj sfs))
    (hadd : List.lookup "additional" sfs = some (.obj afs))
    (htag : List.lookup "song_tag" afs = none) :
    get_now_playing player_id resp =
      .error (.remotePlayerError (.str "No info found")) := by
  simp [get_now_playing, hstat, pyIndex, hst, hsong, hadd, pyGet, htag,
    Json.beq, Json.truthy]

/-- Witness for C4: a concrete playing status without tag metadata (as an
untagged radio stream produces) raises `RemotePlayerError("No info
found")`. -/
theorem get_now_playing_no_tag_witness :
    get_now_playing "uuid:player-1"
        ⟨200, .obj [("data", .obj
          [("state", .str "playing"),
           ("song", .obj
             [("title", .str "Some Radio"),
              ("type", .str "radio"),
              ("additional", .obj [("song_rating", .num 0)])])])]⟩ =
      .error (.remotePlayerError (.str "No info found")) :=
  get_now_playing_no_tag "uuid:player-1" _
    [("state", .str "playing"),
     ("song", .obj
       [("title", .str "Some Radio"),
        ("type", .str "radio"),
        ("additional", .obj [("song_rating", .num 0)])])]
    [("title", .str "Some Radio"),
     ("type", .str "radio"),
     ("additional", .obj [("song_rating", .num 0)])]
    [("song_rating", .num 0)]
    rfl rfl rfl rfl rfl

/-- C3: for every player status whose state is `playing` and whose song
carries tag metadata (a non-empty `song.additional.song_tag` record with
the `SongTag` fields, each key unique), `get_now_playing` returns the
merged record `\x7btitle: song.title, **song_tag\x7d`: every key of
`song_tag` appears in the result with its value unmodified, plus the key
`title` holding the song's title. -/
theorem get_now_playing_merged (player_id : String) (resp : HttpResponse)
    (info sfs afs tfs : List (String × Json)) (t : Json)
    (hstat : get_remote_player_status player_id resp = .ok (.obj info))
    (hst : List.lookup "state" info = some (.str "playing"))
    (hsong : List.lookup "song" info = some (.obj sfs))
    (hadd : List.lookup "additional" sfs = some (.obj afs))
    (htag : List.lookup "song_tag" afs = some (.obj tfs))
    (htitle : List.lookup "title" sfs = some t)
    (hne : tfs.isEmpty = false)
    (hkeys : ∀ p ∈ tfs, p.1 ∈ songTagKeys)
    (hnd : (tfs.map Prod.fst).Nodup) :
    get_now_playing player_id resp = .ok (some (.obj (("title", t) :: tfs)))
    ∧ (∀ p ∈ tfs, List.lookup p.1 (("title", t) :: tfs) = some p.2)
    ∧ List.lookup "title" (("title", t) :: tfs) = some t := by
  refine ⟨?_, ?_, ?_⟩
  · simp [get_now_playing, hstat, pyIndex, hst, hsong, hadd, pyGet, htag,
      Json.beq, Json.truthy, hne, htitle, mergeTitleTag_songTag t tfs hkeys hnd]
  · intro p hp
    have hne2 : p.1 ≠ "title" := by
      intro h
      have hmem := hkeys p hp
      rw [h] at hmem
      revert hmem
      decide
    simp [List.lookup, beq_eq_false_iff_ne.mpr hne2,
      lookup_of_mem_nodup tfs p.1 p.2 hp hnd]
  · simp [List.lookup]

/-- Witness for C3: a concrete playing status with a full nine-field
`song_tag` yields the title consed onto the unmodified tag fields, and the
`artist` key looks up to its original value. -/
theorem get_now_playing_merged_witness :
    get_now_playing "uuid:player-1"
        ⟨200, .obj [("data", .obj
          [("state", .str "playing"),
           ("song", .obj
             [("title", .str "Song B"),
              ("additional", .obj
                [("song_tag", .obj
                  [("album", .str "Album B"),
                   ("album_artist", .str "Band B"),
                   ("artist", .str "Artist B"),
                   ("comment", .str ""),
                   ("composer", .str "Composer B"),
                   ("disc", .num 1),
                   ("genre", .str "Rock"),
                   ("track", .num 7),
                   ("year", .num 1999)])])])])]⟩ =
      .ok (some (.obj
        [("title", .str "Song B"),
         ("album", .str "Album B"),
         ("album_artist", .str "Band B"),
         ("artist", .str "Artist B"),
         ("comment", .str ""),
         ("composer", .str "Composer B"),
         ("disc", .num 1),
         ("genre", .str "Rock"),
         ("track", .num 7),
         ("year", .num 1999)]))
    ∧ List.lookup "artist"
        ([("title", .str "Song B"),
          ("album", .str "Album B"),
          ("album_artist", .str "Band B"),
          ("artist", .str "Artist B"),
          ("comment", .str ""),
          ("composer", .str "Composer B"),
          ("disc", .num 1),
          ("genre", .str "Rock"),
          ("track", .num 7),
          ("year", .num 1999)] : List (String × Json)) = some (.str "Artist B") := by
  have h := get_now_playing_merged "uuid:player-1"
    ⟨200, .obj [("data", .obj
      [("state", .str "playing"),
       ("song", .obj
         [("title", .str "Song B"),
          ("additional", .obj
            [("song_tag", .obj
              [("album", .str "Album B"),
               ("album_artist", .str "Band B"),
               ("artist", .str "Artist B"),
               ("comment", .str ""),
               ("composer", .str "Composer B"),
               ("disc", .num 1),
               ("genre", .str "Rock"),
               ("track", .num 7),
               ("year", .num 1999)])])])])]⟩
    [("state", .str "playing"),
     ("song", .obj
       [("title", .str "Song B"),
        ("additional", .obj
          [("song_tag", .obj
            [("album", .str "Album B"),
             ("album_artist", .str "Band B"),
             ("artist", .str "Artist B"),
             ("comment", .str ""),
             ("composer", .str "Composer B"),
             ("disc", .num 1),
             ("genre", .str "Rock"),
             ("track", .num 7),
             ("year", .num 1999)])])])]
    [("title", .str "Song B"),
     ("additional", .obj
       [("song_tag", .obj
         [("album", .str "Album B"),
          ("album_artist", .str "Band B"),
          ("artist", .str "Artist B"),
          ("comment", .str ""),
          ("composer", .str "Composer B"),
          ("disc", .num 1),
          ("genre", .str "Rock"),
          ("track", .num 7),
          ("year", .num 1999)])])]
    [("song_tag", .obj
      [("album", .str "Album B"),
       ("album_artist", .str "Band B"),
       ("artist", .str "Artist B"),
       ("comment", .str ""),
       ("composer", .str "Composer B"),
       ("disc", .num 1),
       ("genre", .str "Rock"),
       ("track", .num 7),
       ("year", .num 1999)])]
    [("album", .str "Album B"),
     ("album_artist", .str "Band B"),
     ("artist", .str "Artist B"),
     ("comment", .str ""),
     ("composer", .str "Composer B"),
     ("disc", .num 1),
     ("genre", .str "Rock"),
     ("track", .num 7),
     ("year", .num 1999)]
    (.str "Song B") rfl rfl rfl rfl rfl rfl rfl
    (by intro p hp; fin_cases hp <;> decide) (by decide)
  exact ⟨h.1, h.2.1 ("artist", .str "Artist B") (by simp)⟩

/-- C2, counterexample: a client constructed with `remote_player =
"Kitchen"` and a device list containing a player named exactly `"Kitchen"`
does NOT resolve that player's id — the source compares against the module
constant `REMOTE_PLAYER_NAME = "Salon (DLNA)"`, ignores the configured
field, and the exhausted generator raises `StopIteration` (no
`PlayerNotFoundError` class exists in the source). -/
theorem get_remote_player_id_cex :
    get_remote_player_id "Kitchen"
        ⟨200, .obj [("data", .obj [("players",
          .arr [.obj [("name", .str "Kitchen"), ("id", .str "k1")]])])]⟩ =
      .error .stopIteration
    ∧ get_remote_player_id "Kitchen"
        ⟨200, .obj [("data", .obj [("players",
          .arr [.obj [("name", .str "Kitchen"), ("id", .str "k1")]])])]⟩ ≠
      .ok (.str "k1") :=
  ⟨rfl, fun h => nomatch h⟩

/-- C2, amended: player resolution ignores the `remote_player` value the
client was constructed with and matches display names against the module
constant `REMOTE_PLAYER_NAME = "Salon (DLNA)"`; it returns the id of the
first player whose name equals that constant, and raises `StopIteration`
(the source has no `PlayerNotFoundError`) when no player in the list has
that name. -/
theorem get_remote_player_id_matches_constant :
    (∀ (rp rp2 : String) (resp : HttpResponse),
      get_remote_player_id rp resp = get_remote_player_id rp2 resp)
    ∧ (∀ (rp : String) (status : Nat) (pre post : List Json)
        (fx : List (String × Json)) (i : Json),
        (∀ y ∈ pre, ∃ gs v, y = Json.obj gs ∧
          List.lookup "name" gs = some v ∧
          Json.beq v (.str REMOTE_PLAYER_NAME) = false) →
        List.lookup "name" fx = some (.str REMOTE_PLAYER_NAME) →
        List.lookup "id" fx = some i →
        get_remote_player_id rp
          ⟨status, .obj [("data", .obj
            [("players", .arr (pre ++ .obj fx :: post))])]⟩ = .ok i)
    ∧ (∀ (rp : String) (status : Nat) (xs : List Json),
        (∀ y ∈ xs, ∃ gs v, y = Json.obj gs ∧
          List.lookup "name" gs = some v ∧
          Json.beq v (.str REMOTE_PLAYER_NAME) = false) →
        get_remote_player_id rp
          ⟨status, .obj [("data", .obj [("players", .arr xs)])]⟩ =
          .error .stopIteration) := by
  refine ⟨fun rp rp2 resp => rfl, ?_, ?_⟩
  · intro rp status pre post fx i hpre hname hid
    rw [get_remote_player_id_players, nextMatchingPlayerId_skip pre _ hpre]
    simp [nextMatchingPlayerId, pyIndex, hname, hid, Json.beq]
  · intro rp status xs hall
    rw [get_remote_player_id_players, nextMatchingPlayerId_none xs hall]

/-- Witness for the amended C2, on the spec's own example: with players
named `A`, `B`, `Salon (DLNA)` the constant-named player's id is returned,
and with no player named `Salon (DLNA)` the call raises `StopIteration`. -/
theorem get_remote_player_id_matches_constant_witness :
    get_remote_player_id "Salon (DLNA)"
        ⟨200, .obj [("data", .obj [("players", .arr
          [.obj [("name", .str "A"), ("id", .str "p1")],
           .obj [("name", .str "B"), ("id", .str "p2")],
           .obj [("name", .str "Salon (DLNA)"), ("id", .str "p3")]])])]⟩ =
      .ok (.str "p3")
    ∧ get_remote_player_id "Salon (DLNA)"
        ⟨200, .obj [("data", .obj [("players", .arr
          [.obj [("name", .str "A"), ("id", .str "p1")]])])]⟩ =
      .error .stopIteration := by
  constructor
  · exact get_remote_player_id_matches_constant.2.1 "Salon (DLNA)" 200
      [.obj [("name", .str "A"), ("id", .str "p1")],
       .obj [("name", .str "B"), ("id", .str "p2")]]
      [] [("name", .str "Salon (DLNA)"), ("id", .str "p3")] (.str "p3")
      (by
        intro y hy
        fin_cases hy
        · exact ⟨[("name", .str "A"), ("id", .str "p1")], .str "A", rfl, rfl, rfl⟩
        · exact ⟨[("name", .str "B"), ("id", .str "p2")], .str "B", rfl, rfl, rfl⟩)
      rfl rfl
  · exact get_remote_player_id_matches_constant.2.2 "Salon (DLNA)" 200
      [.obj [("name", .str "A"), ("id", .str "p1")]]
      (by
        intro y hy
        fin_cases hy
        exact ⟨[("name", .str "A"), ("id", .str "p1")], .str "A", rfl, rfl, rfl⟩)

/-- C6, counterexample: when the server returns the error envelope
`\x7b"error": \x7b"code": 400\x7d\x7d` during the login step, construction
fails with `RemotePlayerError` carrying the payload — the very same
exception value an ordinary device call (here `list_remote_players`)
raises on the same envelope.  No distinct `AuthenticationError` type
exists: all device-reported errors share the one class. -/
theorem login_error_not_distinct :
    post_init "user" "pass" "Salon (DLNA)"
        ⟨200, .obj [("data", .obj
          [("SYNO.AudioStation.RemotePlayer", .obj [])])]⟩
        ⟨200, .obj [("error", .obj [("code", .num 400)])]⟩
        ⟨200, .obj [("data", .obj [("players", .arr [])])]⟩ =
      .error (.remotePlayerError (.obj [("code", .num 400)]))
    ∧ list_remote_players ⟨200, .obj [("error", .obj [("code", .num 400)])]⟩ =
      .error (.remotePlayerError (.obj [("code", .num 400)])) :=
  ⟨rfl, rfl⟩

/-- C6, amended: if the server returns an error envelope during the login
step of client construction, construction fails with
`RemotePlayerError` carrying that error payload — the same single
exception class the source uses for every device-reported error envelope
(there is no separate `AuthenticationError`, `PlayerNotFoundError` or
`NoTrackInfoError` class in the code). -/
theorem construction_login_error (account passwd rp : String)
    (stI stL : Nat) (playersResp : HttpResponse)
    (gs items fsL : List (String × Json)) (e : Json)
    (herr0 : Json.truthy ((List.lookup "error" gs).getD .null) = false)
    (hdata : List.lookup "data" gs = some (.obj items))
    (herr : List.lookup "error" fsL = some e)
    (htr : e.truthy = true) :
    post_init account passwd rp ⟨stI, .obj gs⟩ ⟨stL, .obj fsL⟩ playersResp =
      .error (.remotePlayerError e) := by
  have h1 := request_returns .get
    "webapi/entry.cgi?api=SYNO.API.Info&version=1&method=query" stI gs none
    (by intro d h; cases h) herr0
  have h2 := request_raises .get
    ("webapi/entry.cgi?api=SYNO.API.Auth&version=6&method=login&account="
      ++ account ++ "&passwd=" ++ passwd ++ "&session=AudioStation&format=cookie")
    stL fsL none (by intro d h; cases h) (by simp [herr, htr])
  rw [herr] at h2
  simp [post_init, query_syno_api_info, h1, pyIndex, hdata, pyItems, login, h2]

/-- Witness for the amended C6 at a concrete construction whose login reply
is an error envelope. -/
theorem construction_login_error_witness :
    post_init "user" "secret" "Salon (DLNA)"
        ⟨200, .obj [("data", .obj
          [("SYNO.API.Auth", .obj []), ("SYNO.AudioStation.Info", .obj [])])]⟩
        ⟨200, .obj [("success", .bool false),
                    ("error", .obj [("code", .num 402)])]⟩
        ⟨200, .obj [("data", .obj [("players", .arr [])])]⟩ =
      .error (.remotePlayerError (.obj [("code", .num 402)])) :=
  construction_login_error "user" "secret" "Salon (DLNA)" 200 200
    ⟨200, .obj [("data", .obj [("players", .arr [])])]⟩
    [("data", .obj
      [("SYNO.API.Auth", .obj []), ("SYNO.AudioStation.Info", .obj [])])]
    [("SYNO.API.Auth", .obj []), ("SYNO.AudioStation.Info", .obj [])]
    [("success", .bool false), ("error", .obj [("code", .num 402)])]
    (.obj [("code", .num 402)]) rfl rfl rfl rfl

/-- C8: for every artist name that cannot be transport-encoded (the
request body's `str.encode()` raises `UnicodeEncodeError`, which happens
exactly when the name holds a lone surrogate), `search_for_artist` returns
the empty result `\x7b\x7d` instead of propagating the encoding
exception — whatever the device would have replied. -/
theorem search_for_artist_unencodable (artist : PyStr) (resp : HttpResponse)
    (h : encodable artist = false) :
    search_for_artist artist resp = .ok (.obj []) := by
  have hb : encodable (artistSearchBody artist) = false := by
    unfold encodable artistSearchBody
    unfold encodable at h
    rw [List.all_append, List.all_append, h]
    simp
  simp [search_for_artist, request, hb]

/-- Witness for C8: the one-code-point name `U+D800` (a lone surrogate) is
unencodable and the search returns the empty dict. -/
theorem search_for_artist_unencodable_witness :
    encodable [0xD800] = false
    ∧ search_for_artist [0xD800]
        ⟨200, .obj [("data", .obj [("artists", .arr [])])]⟩ = .ok (.obj []) :=
  ⟨by decide,
   search_for_artist_unencodable [0xD800]
     ⟨200, .obj [("data", .obj [("artists", .arr [])])]⟩ (by decide)⟩

/-- C7, counterexample: for an artist the collaborator does not know
(`pylast.WSError`, modelled by the `none` oracle), the first call stores
the empty set in the cache — and the second call with the same name STILL
performs the last.fm network round trip (third component `true`), because
the walrus test `if similar_artists_set := SIMILAR_ARTISTS.get(artist,
set()):` is falsy on an empty cached set.  Memoization as claimed fails
for empty results. -/
theorem get_similar_artists_empty_recompute :
    get_similar_artists true (fun _ _ => none) (fun _ => ⟨200, .obj []⟩)
        [] "Unknown Artist" 30 =
      .ok ([], [("Unknown Artist", [])], true)
    ∧ get_similar_artists true (fun _ _ => none) (fun _ => ⟨200, .obj []⟩)
        [("Unknown Artist", [])] "Unknown Artist" 30 =
      .ok ([], [("Unknown Artist", [])], true) :=
  ⟨rfl, rfl⟩

/-- C7, amended: the memoization holds whenever the first call's result
set is non-empty: after a call for an artist name that returned a
non-empty set `s` and cache `cache2`, a second call with the same name
(any limit) returns the identical cached set `s` without performing the
last.fm network round trip (third component `false`).  An empty first
result is effectively not cached and is recomputed. -/
theorem get_similar_artists_memoized
    (simOracle : String → Nat → Option (List String))
    (searchResp : String → HttpResponse) (cache cache2 : SimCache)
    (artist : String) (limit limit2 : Nat) (s : List String)
    (h1 : get_similar_artists true simOracle searchResp cache artist limit =
      .ok (s, cache2, true))
    (hne : s.isEmpty = false) :
    get_similar_artists true simOracle searchResp cache2 artist limit2 =
      .ok (s, cache2, false) := by
  unfold get_similar_artists at h1
  simp only [Bool.true_eq_false, if_false, reduceIte] at h1
  by_cases hc : (cacheGetD cache artist).isEmpty = false
  · rw [if_pos hc] at h1
    simp at h1
  · rw [if_neg hc] at h1
    revert h1
    cases hsl : searchLoop searchResp (get_similar simOracle artist limit)
        (cacheGetD cache artist) with
    | error e => intro h1; cases h1
    | ok s0 =>
      intro h1
      rw [Except.ok.injEq, Prod.mk.injEq, Prod.mk.injEq] at h1
      obtain ⟨hs0, hcache, -⟩ := h1
      have hne0 : s0.isEmpty = false := by rw [hs0]; exact hne
      rw [← hcache, ← hs0]
      simp [get_similar_artists, cacheGetD_cacheSet, hne0]

/-- Witness for the amended C7: last.fm proposes `Calogero`, the device
search finds an artist of the same name, so the first call returns the
non-empty set `["Calogero"]` and caches it; the second call returns the
same set from the cache without the network round trip. -/
theorem get_similar_artists_memoized_witness :
    get_similar_artists true (fun _ _ => some ["Calogero"])
        (fun _ => ⟨200, .obj [("data", .obj [("artists",
          .arr [.obj [("name", .str "Calogero")]])])]⟩)
        [] "Calogero" 30 =
      .ok (["Calogero"], [("Calogero", ["Calogero"])], true)
    ∧ get_similar_artists true (fun _ _ => some ["Calogero"])
        (fun _ => ⟨200, .obj [("data", .obj [("artists",
          .arr [.obj [("name", .str "Calogero")]])])]⟩)
        [("Calogero", ["Calogero"])] "Calogero" 17 =
      .ok (["Calogero"], [("Calogero", ["Calogero"])], false) :=
  ⟨rfl,
   get_similar_artists_memoized (fun _ _ => some ["Calogero"])
     (fun _ => ⟨200, .obj [("data", .obj [("artists",
       .arr [.obj [("name", .str "Calogero")]])])]⟩)
     [] [("Calogero", ["Calogero"])] "Calogero" 30 17 ["Calogero"]
     rfl rfl⟩

/-- C10: in the polling loop, `current_track` is updated only after the
now-playing update and the scrobble both complete (a later failure of the
similar-artists step does not undo it); if `update_now_playing` or
`scrobble` raises `pylast.NetworkError`, `current_track` is left
unchanged, so on the next iteration the same track still differs from
`current_track` and the now-playing update is attempted again. -/
theorem loop_iteration_atomic (u s m u2 s2 m2 : Bool) (i cur : Json)
    (htr : i.truthy = true) (hne : Json.beq cur i = false) :
    ((loop_iteration u s m (some i) cur).current_track =
      if u || s then cur else i)
    ∧ (loop_iteration u s m (some i) cur).updateCalled = true
    ∧ ((u || s) = true →
        (loop_iteration u2 s2 m2 (some i)
          ((loop_iteration u s m (some i) cur).current_track)).updateCalled =
          true) := by
  cases u <;> cases s <;> cases m <;> cases u2 <;> cases s2 <;> cases m2 <;>
    simp [loop_iteration, optTruthy, htr, hne]

/-- Witness for C10 on a concrete track against an empty last-seen track:
a failing now-playing update leaves `current_track` unchanged and the next
iteration re-attempts the update; a fully successful iteration advances
`current_track` to the new track. -/
theorem loop_iteration_atomic_witness :
    (loop_iteration true false false
        (some (.obj [("title", .str "T"), ("artist", .str "A")]))
        (.obj [])).current_track = .obj []
    ∧ (loop_iteration false false false
        (some (.obj [("title", .str "T"), ("artist", .str "A")]))
        (.obj [])).current_track =
      .obj [("title", .str "T"), ("artist", .str "A")]
    ∧ (loop_iteration false true true
        (some (.obj [("title", .str "T"), ("artist", .str "A")]))
        ((loop_iteration true false false
          (some (.obj [("title", .str "T"), ("artist", .str "A")]))
          (.obj [])).current_track)).updateCalled = true := by
  have h1 := loop_iteration_atomic true false false false true true
    (.obj [("title", .str "T"), ("artist", .str "A")]) (.obj []) rfl rfl
  have h2 := loop_iteration_atomic false false false false true true
    (.obj [("title", .str "T"), ("artist", .str "A")]) (.obj []) rfl rfl
  refine ⟨?_, ?_, h1.2.2 rfl⟩
  · rw [h1.1]
    rfl
  · rw [h2.1]
    rfl

end SynoTools
